import Mathlib

/-!
Shallow embedding of `homeassistant/components/telegram_bot/webhooks.py`
(Telegram bot webhook platform) and proofs about it.

The Python module has three pieces:
* `async_setup_platform` — validates the webhook URL, reconciles the remote
  webhook registration, and registers the inbound HTTP view;
* `PushBot` — `register_webhook` / `_try_to_set_webhook` / `deregister_webhook`,
  the reconciliation logic against the Telegram bot client;
* `PushBotView.post` — the inbound request handler (trust gate, JSON parse,
  dispatch).

External collaborators (the Telegram client `bot`, the `ipaddress` standard
library, the JSON body parser, and the update parser `Update.de_json`) are
embedded by their observable behavior.  Remote calls made by the code are
recorded in explicit traces so that claims about which calls happen can be
stated and proved.
-/

namespace TelegramWebhooks

/-! ## IP addresses and CIDR networks (`ipaddress` stdlib model)

An address or network is IPv4 (32 bits) or IPv6 (128 bits); values are
natural numbers below `2 ^ width`.  The stdlib membership test
`addr in network` returns `False` on a version mismatch and otherwise
compares `int(addr) & int(net.netmask)` with `int(net.network_address)`.
-/

inductive IPVersion
  | v4
  | v6
deriving DecidableEq

def IPVersion.width : IPVersion → Nat
  | .v4 => 32
  | .v6 => 128

structure IPAddr where
  version : IPVersion
  value : Nat
deriving DecidableEq

structure IPNetwork where
  version : IPVersion
  networkAddress : Nat
  prefixLen : Nat
deriving DecidableEq

def IPNetwork.hostBits (n : IPNetwork) : Nat :=
  n.version.width - n.prefixLen

def IPNetwork.netmask (n : IPNetwork) : Nat :=
  2 ^ n.version.width - 2 ^ n.hostBits

/-- Embedding of the stdlib test `addr in network` used by the handler:
version mismatch is `false`, otherwise the masked address is compared with
the network address. -/
def IPNetwork.containsAddr (n : IPNetwork) (a : IPAddr) : Bool :=
  if n.version = a.version then
    a.value &&& n.netmask == n.networkAddress
  else
    false

/-- Embedding of `any(real_ip in net for net in self.trusted_networks)`
from `PushBotView.post`. -/
def trustGateAllowed (trusted : List IPNetwork) (a : IPAddr) : Bool :=
  trusted.any fun net => net.containsAddr a

/-- Specification-level membership: the address value lies in the interval
of the CIDR range (and the versions agree).  Used to compare the code with
the wording of the spec, which speaks of belonging to at least one range. -/
def IPNetwork.inRange (n : IPNetwork) (a : IPAddr) : Prop :=
  n.version = a.version ∧
    n.networkAddress ≤ a.value ∧ a.value < n.networkAddress + 2 ^ n.hostBits

instance (n : IPNetwork) (a : IPAddr) : Decidable (n.inRange a) := by
  unfold IPNetwork.inRange
  exact inferInstance

/-- A well-formed CIDR network as `ip_network` would produce it: the prefix
length fits the version width, the network address fits the width and has
all host bits zero. -/
def IPNetwork.ValidNet (n : IPNetwork) : Prop :=
  n.prefixLen ≤ n.version.width ∧
    n.networkAddress < 2 ^ n.version.width ∧
    n.networkAddress % 2 ^ n.hostBits = 0

instance (n : IPNetwork) : Decidable n.ValidNet := by
  unfold IPNetwork.ValidNet
  exact inferInstance

/-- A well-formed address: the value fits the version width. -/
def IPAddr.ValidAddr (a : IPAddr) : Prop :=
  a.value < 2 ^ a.version.width

instance (a : IPAddr) : Decidable a.ValidAddr := by
  unfold IPAddr.ValidAddr
  exact inferInstance

/-! ## JSON values, updates and the update parser -/

/-- JSON values, as produced by the body parser `request.json()`. -/
inductive Json
  | null
  | bool (b : Bool)
  | num (n : Int)
  | str (s : String)
  | arr (elems : List Json)
  | obj (fields : List (String × Json))

/-- Python exception kinds that matter to this module. -/
inductive PyErr
  | valueError
  | typeError
  | attributeError
  | timedOut
  | networkError
deriving DecidableEq

/-- The canonical parsed update; only the id is relevant here. -/
structure Update where
  update_id : Int
deriving DecidableEq

def jsonLookup (fields : List (String × Json)) (key : String) : Option Json :=
  (fields.find? fun f => f.1 = key).map fun f => f.2

/-- Embedding of `Update.de_json(data, bot)` of the Telegram client library
(version 13 line, the one this module imports `Dispatcher` from): falsy data
(JSON null or an empty object) yields `None`; a JSON object carrying a
numeric `update_id` yields an `Update`; anything else raises (`.copy()` on a
non-dict raises `AttributeError`, a dict without the required `update_id`
makes the constructor raise `TypeError`).  The exception is NOT caught by
`PushBotView.post`. -/
def deJson : Json → Except PyErr (Option Update)
  | .null => .ok none
  | .obj [] => .ok none
  | .obj (f :: fs) =>
    match jsonLookup (f :: fs) "update_id" with
    | some (.num n) => .ok (some ⟨n⟩)
    | _ => .error .typeError
  | _ => .error .attributeError

/-- An inbound request body: either text that is not valid JSON (so that
`await request.json()` raises `ValueError`), or a parsed JSON document. -/
inductive RequestBody
  | malformed (raw : String)
  | wellFormed (j : Json)

/-- Embedding of `await request.json()`: malformed bodies raise
`ValueError` (`json.JSONDecodeError` is a subclass). -/
def requestJson : RequestBody → Except PyErr Json
  | .malformed _ => .error .valueError
  | .wellFormed j => .ok j

/-! ## HTTP responses -/

/-- An HTTP response: status and optional JSON body (`none` = empty body). -/
structure HttpResponse where
  status : Nat
  body : Option Json

/-- Modelled from the spec: `HomeAssistantView.json_message` (part of
`homeassistant.components.http`, which is not included under `src/`) builds
a JSON response whose body is an object with a `message` field, carrying the
given status code — a 401 response with an Access denied message, and a 400
response with an Invalid JSON message, per the external-interface section of
the spec. -/
def jsonMessage (message : String) (status : Nat) : HttpResponse :=
  ⟨status, some (.obj [("message", .str message)])⟩

/-- Modelled from the spec: the `HomeAssistantView` request wrapper (also in
`homeassistant.components.http`, not under `src/`) converts a handler return
value of `None` into an HTTP 200 response with an empty body — respond with
an empty success body, equivalent to HTTP 200 with no content. -/
def emptySuccessResponse : HttpResponse :=
  ⟨200, none⟩

/-! ## The inbound request handler `PushBotView.post` -/

/-- Everything observable about one run of `PushBotView.post`:
the outcome (a response, or an uncaught exception), whether
`request.json()` was ever invoked, and the list of arguments passed to
`Dispatcher.process_update` (the argument can be `None`, since the code
dispatches whatever `Update.de_json` returned). -/
structure PostRun where
  outcome : Except PyErr HttpResponse
  bodyParsed : Bool
  dispatched : List (Option Update)

/-- Embedding of `PushBotView.post`:

* deny with 401 before touching the body when the caller address is in no
  trusted network;
* answer 400 when `request.json()` raises `ValueError`;
* otherwise parse via `Update.de_json` (uncaught exceptions propagate),
  call `Dispatcher.process_update` on the result, and return `None`
  (rendered as an empty 200 by the view wrapper). -/
def PushBotView.post (trusted : List IPNetwork) (remote : IPAddr)
    (body : RequestBody) : PostRun :=
  if trustGateAllowed trusted remote then
    match requestJson body with
    | .error _ => ⟨.ok (jsonMessage "Invalid JSON" 400), true, []⟩
    | .ok data =>
      match deJson data with
      | .error e => ⟨.error e, true, []⟩
      | .ok update => ⟨.ok emptySuccessResponse, true, [update]⟩
  else
    ⟨.ok (jsonMessage "Access denied" 401), false, []⟩

/-- The HTTP status of a finished run (`none` when an exception escaped the
handler, in which case the server, not the handler, produces the reply). -/
def PostRun.responseStatus (r : PostRun) : Option Nat :=
  match r.outcome with
  | .ok resp => some resp.status
  | .error _ => none

/-! ## The Telegram client (provider) model -/

/-- Outcome of one `bot.set_webhook(url, timeout=5)` call: the call can
return a boolean, raise `TimedOut` (the only exception the retry loop
catches), or raise some other exception. -/
inductive SetAttemptOutcome
  | returns (b : Bool)
  | timedOut
  | raises (e : PyErr)

/-- Result of `bot.get_webhook_info()`: `none` models a falsy status value
(the code guards with `if current_status and ...`), `some info` a truthy
status object carrying the currently registered URL. -/
structure WebhookInfo where
  url : String
  last_error_date : Option Int
deriving DecidableEq

/-- Behavior of the Telegram client as observed by this module: the status
returned by `get_webhook_info`, the outcome of the i-th `set_webhook`
attempt (numbered from 0), and the outcome of `delete_webhook`. -/
structure BotBehavior where
  getWebhookInfo : Except PyErr (Option WebhookInfo)
  setWebhook : Nat → SetAttemptOutcome
  deleteWebhook : Except PyErr Bool

/-- One remote provider call issued by the module, with its arguments. -/
inductive ProviderCall
  | getInfo
  | setWebhook (url : String) (timeout : Nat)
  | deleteWebhook
deriving DecidableEq

def ProviderCall.isMutating : ProviderCall → Bool
  | .getInfo => false
  | .setWebhook _ _ => true
  | .deleteWebhook => true

/-- Number of mutating provider calls (set or delete) in a trace. -/
def mutatingCount (calls : List ProviderCall) : Nat :=
  (calls.filter ProviderCall.isMutating).length

/-! ## `PushBot._try_to_set_webhook`

```
retry_num = 0
while retry_num < 3:
    try:
        return self.bot.set_webhook(self.webhook_url, timeout=5)
    except TimedOut:
        retry_num += 1
```
The loop guard `retry_num < 3` is embedded as the structurally decreasing
budget `3 - retry_num`; `attempt` is the index of the next `set_webhook`
call.  The second component counts the `set_webhook` calls made.  Falling
out of the loop returns `None`, embedded as `.ok none`. -/

def tryToSetWebhookGo (beh : Nat → SetAttemptOutcome) (attempt : Nat) :
    Nat → Except PyErr (Option Bool) × Nat
  | 0 => (.ok none, 0)
  | budget + 1 =>
    match beh attempt with
    | .returns b => (.ok (some b), 1)
    | .raises e => (.error e, 1)
    | .timedOut =>
      let r := tryToSetWebhookGo beh (attempt + 1) budget
      (r.1, r.2 + 1)

def try_to_set_webhook (beh : Nat → SetAttemptOutcome) :
    Except PyErr (Option Bool) × Nat :=
  tryToSetWebhookGo beh 0 3

/-! ## `PushBot.register_webhook`

Fetches the current status then, only when the status is truthy and its URL
differs from the desired one, runs the retry loop; `if result:` promotes the
returned value to the overall success flag, with failure only when the set
result is falsy (`False` or `None`).  The informational logging of
`last_error_date` has no effect on control flow and is omitted.  The second
component is the trace of provider calls issued. -/

def register_webhook (bot : BotBehavior) (webhookUrl : String) :
    Except PyErr Bool × List ProviderCall :=
  match bot.getWebhookInfo with
  | .error e => (.error e, [.getInfo])
  | .ok none => (.ok true, [.getInfo])
  | .ok (some info) =>
    if info.url ≠ webhookUrl then
      let r := try_to_set_webhook bot.setWebhook
      let calls : List ProviderCall :=
        .getInfo :: List.replicate r.2 (.setWebhook webhookUrl 5)
      match r.1 with
      | .error e => (.error e, calls)
      | .ok (some true) => (.ok true, calls)
      | .ok (some false) => (.ok false, calls)
      | .ok none => (.ok false, calls)
    else
      (.ok true, [.getInfo])

/-! ## `PushBot.deregister_webhook` -/

inductive LogLevel
  | debug
  | info
  | warning
  | error
deriving DecidableEq

structure LogEntry where
  level : LogLevel
  msg : String
deriving DecidableEq

/-- Everything observable about one `deregister_webhook` invocation. -/
structure DeregisterRun where
  result : Except PyErr Bool
  calls : List ProviderCall
  logs : List LogEntry

/-- Embedding of `PushBot.deregister_webhook`:

```
def deregister_webhook(self, event=None):
    _LOGGER.debug("Deregistering webhook URL")
    return self.bot.delete_webhook()
```
One debug log line, one delete call, and the delete result — exception or
boolean — handed back unchanged; there is no try/except and no logging of
the outcome. -/
def deregister_webhook (bot : BotBehavior) : DeregisterRun :=
  ⟨bot.deleteWebhook, [.deleteWebhook], [⟨.debug, "Deregistering webhook URL"⟩]⟩

/-! ## `async_setup_platform` -/

def TELEGRAM_WEBHOOK_URL : String := "/api/telegram_webhooks"

/-- The platform configuration slice this module reads: an optional
explicit base URL and the trusted networks. -/
structure TelegramConfig where
  url : Option String
  trustedNetworks : List IPNetwork

/-- Embedding of `config.get(CONF_URL) or get_url(hass, require_ssl=True,
allow_internal=False)` from `PushBot.__init__` — the Python `or` falls back
when the configured value is falsy (absent or the empty string);
`externalHttpsUrl` stands for the `get_url` result. -/
def pushBotBaseUrl (externalHttpsUrl : String) (config : TelegramConfig) :
    String :=
  match config.url with
  | some u => if u = "" then externalHttpsUrl else u
  | none => externalHttpsUrl

/-- `self.webhook_url = f"{self.base_url}{TELEGRAM_WEBHOOK_URL}"`. -/
def pushBotWebhookUrl (baseUrl : String) : String :=
  baseUrl ++ TELEGRAM_WEBHOOK_URL

/-- Embedding of the Python prefix test `s.startswith(pre)`, via the
character lists of the strings. -/
def strStartsWith (s pre : String) : Bool :=
  pre.data.isPrefixOf s.data

/-- The scheme of a URL string: everything before the first colon. -/
def urlScheme (url : String) : String :=
  ⟨url.data.takeWhile fun c => c ≠ ':'⟩

/-- Everything observable about one run of `async_setup_platform`: the
return value (or propagated exception), whether the `PushBotView` was
registered with the HTTP server, whether the stop-event deregistration hook
was installed, and the provider calls issued along the way. -/
structure SetupRun where
  result : Except PyErr Bool
  viewRegistered : Bool
  stopHookRegistered : Bool
  providerCalls : List ProviderCall

/-- Embedding of `async_setup_platform`:

* return `False` without any provider call when the webhook URL does not
  start with the string `https` (the Python guard is
  `if not pushbot.webhook_url.startswith("https")`);
* then run `register_webhook`; on falsy result return `False` without
  registering the view; an exception propagates;
* on success install the stop hook, register the view, return `True`. -/
def async_setup_platform (bot : BotBehavior) (externalHttpsUrl : String)
    (config : TelegramConfig) : SetupRun :=
  let webhookUrl := pushBotWebhookUrl (pushBotBaseUrl externalHttpsUrl config)
  if strStartsWith webhookUrl "https" then
    match register_webhook bot webhookUrl with
    | (.error e, calls) => ⟨.error e, false, false, calls⟩
    | (.ok false, calls) => ⟨.ok false, false, false, calls⟩
    | (.ok true, calls) => ⟨.ok true, true, true, calls⟩
  else
    ⟨.ok false, false, false, []⟩

/-! ## Honest provider semantics (for the idempotence claim)

A well-behaved provider holds a currently registered URL, reports it
truthfully, applies every `set_webhook` and acknowledges with `True`, and
never times out. -/

/-- The client behavior over an honest provider whose registered URL is
`remoteUrl`. -/
def honestBot (remoteUrl : String) : BotBehavior :=
  ⟨.ok (some ⟨remoteUrl, none⟩), fun _ => .returns true, .ok true⟩

/-- How an honest provider's registered URL evolves under one call. -/
def applyProviderCall (remoteUrl : String) : ProviderCall → String
  | .getInfo => remoteUrl
  | .setWebhook u _ => u
  | .deleteWebhook => ""

/-- The provider's registered URL after a trace of successful calls. -/
def remoteAfter (remoteUrl : String) (calls : List ProviderCall) : String :=
  calls.foldl applyProviderCall remoteUrl

/-! ## Concrete scenario inputs -/

/-- The CIDR range `10.0.0.0/8`. -/
def net10 : IPNetwork := ⟨.v4, 10 * 2 ^ 24, 8⟩

/-- The address `10.1.2.3`. -/
def addrTrusted : IPAddr := ⟨.v4, 10 * 2 ^ 24 + 1 * 2 ^ 16 + 2 * 2 ^ 8 + 3⟩

/-- The address `203.0.113.5`. -/
def addrUntrusted : IPAddr := ⟨.v4, 203 * 2 ^ 24 + 113 * 2 ^ 8 + 5⟩

/-- The body `update_id: 1` as a JSON object. -/
def updateBody : RequestBody := .wellFormed (.obj [("update_id", .num 1)])

/-! ## Helper lemmas: CIDR mask membership is interval membership -/

theorem two_pow_sub_two_pow_eq_shift {w k : Nat} (hk : k ≤ w) :
    2 ^ w - 2 ^ k = (2 ^ (w - k) - 1) <<< k := by
  rw [Nat.shiftLeft_eq, Nat.sub_mul, one_mul, ← Nat.pow_add,
    Nat.sub_add_cancel hk]

theorem land_mask_eq {w k a : Nat} (hk : k ≤ w) (ha : a < 2 ^ w) :
    a &&& (2 ^ w - 2 ^ k) = a / 2 ^ k * 2 ^ k := by
  rw [two_pow_sub_two_pow_eq_shift hk, ← Nat.shiftRight_eq_div_pow,
    ← Nat.shiftLeft_eq]
  apply Nat.eq_of_testBit_eq
  intro j
  simp only [Nat.testBit_and, Nat.testBit_shiftLeft, Nat.testBit_shiftRight,
    Nat.testBit_two_pow_sub_one]
  by_cases hkj : k ≤ j
  · have hkj' : k + (j - k) = j := by omega
    rw [hkj']
    by_cases hjw : j < w
    · have : j - k < w - k := by omega
      simp [hkj, this]
    · have haj : a < 2 ^ j := lt_of_lt_of_le ha (Nat.pow_le_pow_right (by omega) (by omega))
      simp [Nat.testBit_lt_two_pow haj]
  · simp [hkj]

theorem land_mask_eq_iff {w k a na : Nat} (hk : k ≤ w) (ha : a < 2 ^ w)
    (halign : na % 2 ^ k = 0) :
    (a &&& (2 ^ w - 2 ^ k) = na) ↔ (na ≤ a ∧ a < na + 2 ^ k) := by
  rw [land_mask_eq hk ha]
  have hKpos : 0 < 2 ^ k := Nat.pos_pow_of_pos k (by omega)
  obtain ⟨m, hm⟩ := Nat.dvd_of_mod_eq_zero halign
  have hmod : a % 2 ^ k < 2 ^ k := Nat.mod_lt a hKpos
  have hsplit : 2 ^ k * (a / 2 ^ k) + a % 2 ^ k = a := Nat.div_add_mod a (2 ^ k)
  subst hm
  constructor
  · intro h
    refine ⟨?_, ?_⟩
    · calc 2 ^ k * m = a / 2 ^ k * 2 ^ k := h.symm
        _ ≤ a := Nat.div_mul_le_self a (2 ^ k)
    · have h1 : a < 2 ^ k * (a / 2 ^ k) + 2 ^ k := by
        conv_lhs => rw [← hsplit]
        exact Nat.add_lt_add_left hmod _
      calc a < 2 ^ k * (a / 2 ^ k) + 2 ^ k := h1
        _ = a / 2 ^ k * 2 ^ k + 2 ^ k := by rw [Nat.mul_comm]
        _ = 2 ^ k * m + 2 ^ k := by rw [h]
  · rintro ⟨h1, h2⟩
    have hq : a / 2 ^ k = m := by
      rcases Nat.lt_trichotomy (a / 2 ^ k) m with hlt | heq | hgt
      · exfalso
        have hstep : (a / 2 ^ k).succ * 2 ^ k ≤ m * 2 ^ k :=
          mul_le_mul_right' (Nat.succ_le_of_lt hlt) (2 ^ k)
        rw [Nat.succ_mul, Nat.mul_comm (a / 2 ^ k) (2 ^ k),
          Nat.mul_comm m (2 ^ k)] at hstep
        have hle : 2 ^ k * m ≤ 2 ^ k * (a / 2 ^ k) + a % 2 ^ k := by
          rw [hsplit]; exact h1
        have hcon : 2 ^ k * (a / 2 ^ k) + 2 ^ k ≤
            2 ^ k * (a / 2 ^ k) + a % 2 ^ k := le_trans hstep hle
        exact absurd (Nat.le_of_add_le_add_left hcon) (Nat.not_le_of_lt hmod)
      · exact heq
      · exfalso
        have hstep : m.succ * 2 ^ k ≤ a / 2 ^ k * 2 ^ k :=
          mul_le_mul_right' (Nat.succ_le_of_lt hgt) (2 ^ k)
        rw [Nat.succ_mul, Nat.mul_comm (a / 2 ^ k) (2 ^ k),
          Nat.mul_comm m (2 ^ k)] at hstep
        have hge : 2 ^ k * (a / 2 ^ k) ≤ a := by
          rw [Nat.mul_comm]
          exact Nat.div_mul_le_self a (2 ^ k)
        have hcon : 2 ^ k * m + 2 ^ k ≤ a := le_trans hstep hge
        exact absurd h2 (Nat.not_lt_of_le hcon)
    rw [hq, Nat.mul_comm]

theorem containsAddr_iff_inRange {n : IPNetwork} {a : IPAddr}
    (hn : n.ValidNet) (ha : a.ValidAddr) :
    n.containsAddr a = true ↔ n.inRange a := by
  obtain ⟨hp, hna, halign⟩ := hn
  unfold IPNetwork.containsAddr IPNetwork.inRange
  by_cases hv : n.version = a.version
  · have hw : a.version.width = n.version.width := by rw [hv]
    have ha' : a.value < 2 ^ n.version.width := by
      rw [← hw]; exact ha
    have hhost : n.hostBits ≤ n.version.width := Nat.sub_le _ _
    simp only [hv, if_true, beq_iff_eq, IPNetwork.netmask]
    rw [hw, land_mask_eq_iff hhost ha' halign]
    tauto
  · simp [hv]

theorem trustGate_iff_exists {trusted : List IPNetwork} {a : IPAddr}
    (hval : ∀ n ∈ trusted, n.ValidNet) (ha : a.ValidAddr) :
    trustGateAllowed trusted a = true ↔ ∃ n ∈ trusted, n.inRange a := by
  unfold trustGateAllowed
  rw [List.any_eq_true]
  constructor
  · rintro ⟨n, hmem, hc⟩
    exact ⟨n, hmem, (containsAddr_iff_inRange (hval n hmem) ha).mp hc⟩
  · rintro ⟨n, hmem, hr⟩
    exact ⟨n, hmem, (containsAddr_iff_inRange (hval n hmem) ha).mpr hr⟩

/-! ## Helper lemmas about the retry loop and the reconciler -/

theorem tryToSetWebhookGo_le (beh : Nat → SetAttemptOutcome) :
    ∀ (budget attempt : Nat), (tryToSetWebhookGo beh attempt budget).2 ≤ budget := by
  intro budget
  induction budget with
  | zero => intro attempt; simp [tryToSetWebhookGo]
  | succ n ih =>
    intro attempt
    unfold tryToSetWebhookGo
    cases hb : beh attempt with
    | returns b => simp
    | raises e => simp
    | timedOut =>
      simp only
      exact Nat.succ_le_succ (ih (attempt + 1))

theorem try_to_set_webhook_le (beh : Nat → SetAttemptOutcome) :
    (try_to_set_webhook beh).2 ≤ 3 :=
  tryToSetWebhookGo_le beh 3 0

/-- When the status is truthy and its URL differs from the desired one, the
trace is the status fetch followed by exactly the attempts of the retry
loop, each of the form `set_webhook(url, timeout=5)`. -/
theorem register_webhook_calls_of_ne {bot : BotBehavior} {url : String}
    {info : WebhookInfo} (hinfo : bot.getWebhookInfo = .ok (some info))
    (hne : info.url ≠ url) :
    (register_webhook bot url).2 =
      .getInfo ::
        List.replicate (try_to_set_webhook bot.setWebhook).2 (.setWebhook url 5) := by
  unfold register_webhook
  rw [hinfo]
  simp only [hne, ne_eq, not_false_iff, if_true]
  rcases hr : (try_to_set_webhook bot.setWebhook).1 with e | b
  · simp [hr]
  · rcases b with _ | b
    · simp [hr]
    · cases b <;> simp [hr]

theorem mutatingCount_getInfo_replicate (url : String) (t n : Nat) :
    mutatingCount (.getInfo :: List.replicate n (.setWebhook url t)) = n := by
  induction n with
  | zero => simp [mutatingCount, ProviderCall.isMutating]
  | succ m ih =>
    simp only [List.replicate_succ] at *
    simp only [mutatingCount, List.filter] at *
    simp [ProviderCall.isMutating] at *

/-! ## Claim theorems -/

/-- C9: when `get_webhook_info` returns a falsy status value,
`register_webhook` reports success immediately, issuing no `set_webhook`
call — the unknown remote state is treated as already registered. -/
theorem register_webhook_falsy_status_succeeds (bot : BotBehavior)
    (url : String) (h : bot.getWebhookInfo = .ok none) :
    register_webhook bot url = (.ok true, [.getInfo]) := by
  unfold register_webhook
  rw [h]

theorem register_webhook_falsy_status_succeeds_witness :
    register_webhook ⟨.ok none, fun _ => .returns true, .ok true⟩
        "https://example.com/api/telegram_webhooks" = (.ok true, [.getInfo]) :=
  register_webhook_falsy_status_succeeds _ _ rfl

/-- C10: when the remote URL differs and the first `set_webhook` call
completes without raising but returns `False`, the reconciler fails after
exactly one attempt: no retry happens (retries cover only `TimedOut`) and
`register_webhook` returns `False`. -/
theorem set_webhook_false_no_retry (bot : BotBehavior) (url : String)
    (info : WebhookInfo) (hinfo : bot.getWebhookInfo = .ok (some info))
    (hne : info.url ≠ url) (hset : bot.setWebhook 0 = .returns false) :
    register_webhook bot url = (.ok false, [.getInfo, .setWebhook url 5]) := by
  unfold register_webhook try_to_set_webhook tryToSetWebhookGo
  rw [hinfo]
  simp [hne, hset]

theorem set_webhook_false_no_retry_witness :
    register_webhook ⟨.ok (some ⟨"", none⟩), fun _ => .returns false, .ok true⟩
        "https://example.com/api/telegram_webhooks" =
      (.ok false,
        [.getInfo, .setWebhook "https://example.com/api/telegram_webhooks" 5]) :=
  set_webhook_false_no_retry _ _ ⟨"", none⟩ rfl (by decide) rfl

/-- C5: reconciliation is idempotent.  First conjunct: for any client whose
truthy status already carries the desired URL, `register_webhook` reports
success with zero mutating calls.  Second conjunct: over an honest provider
and with no external change of remote state, running `register_webhook`
twice reports success both times and performs at most one mutating provider
call in total (one when the initial URL mismatched, zero otherwise). -/
theorem register_webhook_idempotent :
    (∀ (bot : BotBehavior) (url : String) (info : WebhookInfo),
        bot.getWebhookInfo = .ok (some info) → info.url = url →
        register_webhook bot url = (.ok true, [.getInfo])) ∧
    (∀ s url : String,
        (register_webhook (honestBot s) url).1 = .ok true ∧
        (register_webhook
            (honestBot (remoteAfter s (register_webhook (honestBot s) url).2))
            url).1 = .ok true ∧
        mutatingCount ((register_webhook (honestBot s) url).2 ++
            (register_webhook
              (honestBot (remoteAfter s (register_webhook (honestBot s) url).2))
              url).2) ≤ 1) := by
  have hmatch : ∀ url : String, register_webhook (honestBot url) url =
      (.ok true, [.getInfo]) := by
    intro url
    unfold register_webhook honestBot
    simp
  constructor
  · intro bot url info hinfo heq
    unfold register_webhook
    rw [hinfo]
    simp [heq]
  · intro s url
    by_cases h : s = url
    · subst h
      rw [hmatch s]
      have : remoteAfter s [ProviderCall.getInfo] = s := by
        simp [remoteAfter, applyProviderCall]
      rw [this, hmatch s]
      simp [mutatingCount, ProviderCall.isMutating]
    · have hreg1 : register_webhook (honestBot s) url =
          (.ok true, [.getInfo, .setWebhook url 5]) := by
        unfold register_webhook honestBot try_to_set_webhook tryToSetWebhookGo
        simp [h]
      rw [hreg1]
      have hremote : remoteAfter s [.getInfo, .setWebhook url 5] = url := by
        simp [remoteAfter, applyProviderCall]
      rw [hremote, hmatch url]
      simp [mutatingCount, ProviderCall.isMutating]

theorem register_webhook_idempotent_witness :
    register_webhook (honestBot "https://a/api/telegram_webhooks")
        "https://a/api/telegram_webhooks" = (.ok true, [.getInfo]) :=
  register_webhook_idempotent.1 (honestBot "https://a/api/telegram_webhooks")
    "https://a/api/telegram_webhooks" ⟨"https://a/api/telegram_webhooks", none⟩
    rfl rfl

/-- C4: when the remote URL differs from the desired one, the set-webhook
operation is attempted at most 3 times; every attempt is
`set_webhook(url, timeout=5)` and the trace holds nothing but those
attempts after the status fetch (timeouts retry immediately, with no
backoff step in between); a client timing out exactly twice and then
succeeding makes reconciliation succeed with exactly 3 attempts; a client
timing out 3 times in a row makes it fail with exactly 3 attempts and no
4th attempt. -/
theorem set_webhook_retry_bound (bot : BotBehavior) (url : String)
    (info : WebhookInfo) (hinfo : bot.getWebhookInfo = .ok (some info))
    (hne : info.url ≠ url) :
    mutatingCount (register_webhook bot url).2 ≤ 3 ∧
    (∀ c ∈ (register_webhook bot url).2,
        c.isMutating = true → c = .setWebhook url 5) ∧
    (bot.setWebhook 0 = .timedOut → bot.setWebhook 1 = .timedOut →
      bot.setWebhook 2 = .returns true →
      register_webhook bot url =
        (.ok true, .getInfo :: List.replicate 3 (.setWebhook url 5))) ∧
    ((∀ i, i < 3 → bot.setWebhook i = .timedOut) →
      register_webhook bot url =
        (.ok false, .getInfo :: List.replicate 3 (.setWebhook url 5))) := by
  have hcalls := register_webhook_calls_of_ne hinfo hne
  refine ⟨?_, ?_, ?_, ?_⟩
  · rw [hcalls, mutatingCount_getInfo_replicate]
    exact try_to_set_webhook_le bot.setWebhook
  · intro c hc hmut
    rw [hcalls] at hc
    rcases List.mem_cons.mp hc with heq | hmem
    · rw [heq] at hmut
      simp [ProviderCall.isMutating] at hmut
    · exact List.eq_of_mem_replicate hmem
  · intro h0 h1 h2
    unfold register_webhook try_to_set_webhook
    rw [hinfo]
    simp [hne, tryToSetWebhookGo, h0, h1, h2, List.replicate]
  · intro h
    have h0 := h 0 (by omega)
    have h1 := h 1 (by omega)
    have h2 := h 2 (by omega)
    unfold register_webhook try_to_set_webhook
    rw [hinfo]
    simp [hne, tryToSetWebhookGo, h0, h1, h2, List.replicate]

theorem set_webhook_retry_bound_witness :
    register_webhook
        ⟨.ok (some ⟨"https://old.example", none⟩),
          fun i => if i < 2 then .timedOut else .returns true, .ok true⟩
        "https://example.com/api/telegram_webhooks" =
      (.ok true,
        .getInfo ::
          List.replicate 3
            (.setWebhook "https://example.com/api/telegram_webhooks" 5)) :=
  (set_webhook_retry_bound _ _ ⟨"https://old.example", none⟩ rfl
      (by decide)).2.2.1 rfl rfl rfl

/-- C1: whenever `register_webhook` reports failure for the webhook URL the
setup run computes, `async_setup_platform` returns failure and the
`PushBotView` is never registered with the HTTP server (and neither is the
stop hook) — no endpoint is exposed. -/
theorem setup_fails_closed_on_register_failure (bot : BotBehavior)
    (externalHttpsUrl : String) (config : TelegramConfig)
    (h : (register_webhook bot
        (pushBotWebhookUrl (pushBotBaseUrl externalHttpsUrl config))).1 =
      .ok false) :
    (async_setup_platform bot externalHttpsUrl config).result = .ok false ∧
    (async_setup_platform bot externalHttpsUrl config).viewRegistered = false ∧
    (async_setup_platform bot externalHttpsUrl config).stopHookRegistered
      = false := by
  unfold async_setup_platform
  rcases hr : register_webhook bot
      (pushBotWebhookUrl (pushBotBaseUrl externalHttpsUrl config)) with
    ⟨res, calls⟩
  rw [hr] at h
  simp only at h
  subst h
  by_cases hs : strStartsWith
      (pushBotWebhookUrl (pushBotBaseUrl externalHttpsUrl config)) "https" <;>
    simp [hs, hr]

/-- Witness for C1: a client whose status URL mismatches and whose
`set_webhook` returns `False` makes setup fail with no view registered. -/
theorem setup_fails_closed_on_register_failure_witness :
    (async_setup_platform
        ⟨.ok (some ⟨"", none⟩), fun _ => .returns false, .ok true⟩
        "https://unused.example" ⟨some "https://example.com", []⟩).result =
      .ok false ∧
    (async_setup_platform
        ⟨.ok (some ⟨"", none⟩), fun _ => .returns false, .ok true⟩
        "https://unused.example" ⟨some "https://example.com", []⟩).viewRegistered
      = false ∧
    (async_setup_platform
        ⟨.ok (some ⟨"", none⟩), fun _ => .returns false, .ok true⟩
        "https://unused.example"
        ⟨some "https://example.com", []⟩).stopHookRegistered = false :=
  setup_fails_closed_on_register_failure _ _ _ rfl

/-- C7, counterexample: the source guards with
`webhook_url.startswith("https")`, a string-prefix test, not a scheme test.
With base URL `httpsx://example.com` the computed webhook URL has scheme
`httpsx`, which is not HTTPS, yet setup does not abort: it proceeds to call
the provider (the claim says no provider call may happen then). -/
theorem setup_https_prefix_check_not_scheme_check :
    urlScheme (pushBotWebhookUrl
        (pushBotBaseUrl "https://unused.example"
          ⟨some "httpsx://example.com", []⟩)) ≠ "https" ∧
    (async_setup_platform ⟨.ok none, fun _ => .returns true, .ok true⟩
        "https://unused.example"
        ⟨some "httpsx://example.com", []⟩).providerCalls ≠ [] ∧
    (async_setup_platform ⟨.ok none, fun _ => .returns true, .ok true⟩
        "https://unused.example" ⟨some "httpsx://example.com", []⟩).result =
      .ok true := by
  refine ⟨by decide, by decide, rfl⟩

/-- C7 as amended: if the computed webhook URL does not start with the
string `https` (which in particular rejects every `http://` base URL),
setup aborts with failure before any provider call is made and without
registering the view. -/
theorem setup_aborts_without_https_prefix (bot : BotBehavior)
    (externalHttpsUrl : String) (config : TelegramConfig)
    (h : strStartsWith
        (pushBotWebhookUrl (pushBotBaseUrl externalHttpsUrl config)) "https"
      = false) :
    async_setup_platform bot externalHttpsUrl config =
      ⟨.ok false, false, false, []⟩ := by
  unfold async_setup_platform
  simp [h]

/-- Witness for the amended C7: base URL `http://example.com` aborts setup
with an empty provider-call trace. -/
theorem setup_aborts_without_https_prefix_witness :
    async_setup_platform ⟨.ok none, fun _ => .returns true, .ok true⟩
        "https://unused.example" ⟨some "http://example.com", []⟩ =
      ⟨.ok false, false, false, []⟩ :=
  setup_aborts_without_https_prefix _ _ _ (by decide)

/-- C2: for every inbound POST over well-formed trusted networks, the
handler answers 401 exactly when the caller address lies in no configured
CIDR range (range membership in the interval sense, shown equivalent to the
netmask test the code performs), and in the denied case it answers with the
generic denial message, never parses the body and never invokes the
dispatcher. -/
theorem post_unauthorized_iff_untrusted (trusted : List IPNetwork)
    (remote : IPAddr) (body : RequestBody)
    (hval : ∀ n ∈ trusted, n.ValidNet) (ha : remote.ValidAddr) :
    ((PushBotView.post trusted remote body).responseStatus = some 401 ↔
      ¬ ∃ n ∈ trusted, n.inRange remote) ∧
    ((¬ ∃ n ∈ trusted, n.inRange remote) →
      PushBotView.post trusted remote body =
        ⟨.ok (jsonMessage "Access denied" 401), false, []⟩) := by
  have hiff := trustGate_iff_exists hval ha
  by_cases hallow : trustGateAllowed trusted remote = true
  · have hex : ∃ n ∈ trusted, n.inRange remote := hiff.mp hallow
    refine ⟨⟨?_, fun hno => absurd hex hno⟩, fun hno => absurd hex hno⟩
    intro h401
    exfalso
    unfold PushBotView.post at h401
    rw [if_pos hallow] at h401
    cases hb : requestJson body with
    | error e =>
      simp [hb, PostRun.responseStatus, jsonMessage] at h401
    | ok data =>
      cases hd : deJson data with
      | error e =>
        simp [hb, hd, PostRun.responseStatus] at h401
      | ok u =>
        simp [hb, hd, PostRun.responseStatus, emptySuccessResponse] at h401
  · have hnallow : trustGateAllowed trusted remote = false :=
      Bool.eq_false_iff.mpr hallow
    have hno : ¬ ∃ n ∈ trusted, n.inRange remote := fun hex =>
      hallow (hiff.mpr hex)
    refine ⟨⟨fun _ => hno, fun _ => ?_⟩, fun _ => ?_⟩
    · unfold PushBotView.post PostRun.responseStatus
      simp [hnallow, jsonMessage]
    · unfold PushBotView.post
      simp [hnallow]

/-- Witness for C2: `203.0.113.5` against trusted `[10.0.0.0/8]` is denied
with 401, unparsed body and no dispatch. -/
theorem post_unauthorized_iff_untrusted_witness :
    PushBotView.post [net10] addrUntrusted updateBody =
      ⟨.ok (jsonMessage "Access denied" 401), false, []⟩ :=
  (post_unauthorized_iff_untrusted [net10] addrUntrusted updateBody
      (by decide) (by decide)).2 (by decide)

/-- C3, counterexample: a POST from a trusted address whose body is
well-formed JSON that does not match the update schema (the empty object
has no `update_id`) is NOT answered with 400: `Update.de_json` returns
`None` for falsy data, the handler passes that `None` straight to
`Dispatcher.process_update`, and the response is an empty 200. -/
theorem post_schema_mismatch_not_rejected :
    (PushBotView.post [net10] addrTrusted
        (.wellFormed (.obj []))).responseStatus = some 200 ∧
    (PushBotView.post [net10] addrTrusted
        (.wellFormed (.obj []))).dispatched = [none] := by
  refine ⟨by decide, by decide⟩

/-- C3 as amended: for every inbound POST from a trusted address whose body
is malformed JSON, the handler answers 400 with the generic invalid message
and never invokes the dispatcher; well-formed JSON that merely mismatches
the update schema is not rejected this way (the dispatcher can still run,
or a parse exception escapes). -/
theorem post_malformed_json_rejected (trusted : List IPNetwork)
    (remote : IPAddr) (raw : String)
    (h : trustGateAllowed trusted remote = true) :
    PushBotView.post trusted remote (.malformed raw) =
      ⟨.ok (jsonMessage "Invalid JSON" 400), true, []⟩ := by
  unfold PushBotView.post
  simp [h, requestJson]

/-- Witness for the amended C3: body `not-json` from `10.1.2.3` with
trusted `[10.0.0.0/8]` yields 400 and no dispatch. -/
theorem post_malformed_json_rejected_witness :
    PushBotView.post [net10] addrTrusted (.malformed "not-json") =
      ⟨.ok (jsonMessage "Invalid JSON" 400), true, []⟩ :=
  post_malformed_json_rejected _ _ _ (by decide)

/-- C8: a POST from an address inside a well-formed trusted range whose
body parses to an update is answered with an empty 200 and the dispatcher
is invoked exactly once, with exactly that update. -/
theorem post_valid_update_dispatched (trusted : List IPNetwork)
    (remote : IPAddr) (body : RequestBody) (j : Json) (u : Update)
    (net : IPNetwork) (hnet : net ∈ trusted) (hin : net.inRange remote)
    (hnv : net.ValidNet) (hav : remote.ValidAddr)
    (hbody : requestJson body = .ok j) (hparse : deJson j = .ok (some u)) :
    PushBotView.post trusted remote body =
      ⟨.ok emptySuccessResponse, true, [some u]⟩ := by
  have hallow : trustGateAllowed trusted remote = true := by
    unfold trustGateAllowed
    rw [List.any_eq_true]
    exact ⟨net, hnet, (containsAddr_iff_inRange hnv hav).mpr hin⟩
  unfold PushBotView.post
  simp [hallow, hbody, hparse]

/-- Witness for C8: `10.1.2.3` inside `[10.0.0.0/8]` posting
`update_id: 1` gets the empty 200 and one dispatch of update 1. -/
theorem post_valid_update_dispatched_witness :
    PushBotView.post [net10] addrTrusted updateBody =
      ⟨.ok emptySuccessResponse, true, [some ⟨1⟩]⟩ :=
  post_valid_update_dispatched [net10] addrTrusted updateBody
    (.obj [("update_id", .num 1)]) ⟨1⟩ net10 (by decide) (by decide)
    (by decide) (by decide) rfl rfl

/-- C6, counterexample: `deregister_webhook` has no try/except and no
failure logging: when the provider call `delete_webhook` raises, the
exception escapes `deregister_webhook` to its caller, and no warning or
error is ever logged (the only log line is the debug line emitted before
the call). -/
theorem deregister_failure_escalates :
    (deregister_webhook
        ⟨.ok none, fun _ => .returns true, .error .networkError⟩).result =
      .error .networkError ∧
    ∀ e ∈ (deregister_webhook
        ⟨.ok none, fun _ => .returns true, .error .networkError⟩).logs,
      e.level ≠ .warning ∧ e.level ≠ .error := by
  refine ⟨rfl, by decide⟩

/-- C6 as amended: `deregister_webhook` calls the remote delete-webhook
operation exactly once per invocation and hands its outcome — boolean or
raised exception — back to the caller unchanged; it performs no failure
handling of its own: nothing beyond the single debug line is logged, in
particular no warning or error on failure. -/
theorem deregister_single_call_no_failure_handling (bot : BotBehavior) :
    (deregister_webhook bot).calls = [.deleteWebhook] ∧
    (deregister_webhook bot).result = bot.deleteWebhook ∧
    (deregister_webhook bot).logs =
      [⟨.debug, "Deregistering webhook URL"⟩] :=
  ⟨rfl, rfl, rfl⟩

end TelegramWebhooks
